import Mathlib

/-!
Shallow embedding of the two FastAPI relationship demo services:
a one-to-many User/Order service (one_to_many.py) and a one-to-one
User/Profile service (one_to_one.py).  The relational store of each
service is modelled as explicit lists of rows plus auto-increment
counters; each endpoint handler becomes a Lean function over that
state, returning `Except ServiceError` results.  Writes return the
new state paired with the result.
-/

namespace FastapiRel

/-- An HTTP error raised by a handler (FastAPI HTTPException). -/
structure HTTPError where
  status_code : Nat
  detail : String
deriving DecidableEq

/-- Errors a request can surface: a designed HTTP error, an unguarded
Python AttributeError-equivalent fault (dereferencing a missing row),
a storage-level uniqueness violation, or a pydantic validation error
raised while constructing a response model. -/
inductive ServiceError where
  | http (e : HTTPError)
  | attributeError (msg : String)
  | integrityError (msg : String)
  | validationError (msg : String)
deriving DecidableEq

namespace OneToMany

/-- Row of the `users` table in one_to_many.py: id, unique username, unique email. -/
structure User where
  id : Nat
  username : String
  email : String
deriving DecidableEq

/-- Row of the `orders` table in one_to_many.py. `price` is a SQL float,
modelled exactly as a rational (no arithmetic is performed on it). -/
structure Order where
  id : Nat
  product_name : String
  quantity : Int
  price : Rat
  user_id : Nat
deriving DecidableEq

/-- The ecommerce.db store: both tables plus the auto-increment counters. -/
structure DB where
  users : List User
  orders : List Order
  next_user_id : Nat
  next_order_id : Nat
deriving DecidableEq

/-- Request body of POST /users/ (pydantic UserCreate). -/
structure UserCreate where
  username : String
  email : String

/-- Request body of POST /users/\x7buser_id\x7d/orders/ (pydantic OrderCreate). -/
structure OrderCreate where
  product_name : String
  quantity : Int
  price : Rat

/-- Response shape of order endpoints (pydantic OrderResponse):
the stored order columns plus a `username` copied from the owning user. -/
structure OrderResponse where
  id : Nat
  product_name : String
  quantity : Int
  price : Rat
  user_id : Nat
  username : String
deriving DecidableEq

/-- db.query(User).filter(User.id == user_id).first() -/
def getUserById (db : DB) (user_id : Nat) : Option User :=
  db.users.find? (fun u => u.id == user_id)

/-- db.query(Order).filter(Order.id == order_id).first() -/
def getOrderById (db : DB) (order_id : Nat) : Option Order :=
  db.orders.find? (fun o => o.id == order_id)

/-- POST /users/ : inserts a user row; the storage-level unique
constraints on username and email reject duplicates. -/
def create_user (db : DB) (user : UserCreate) : DB × Except ServiceError User :=
  if db.users.any (fun u => u.username == user.username || u.email == user.email) then
    (db, .error (.integrityError ("UNIQUE constraint failed: users")))
  else
    let u : User := ⟨db.next_user_id, user.username, user.email⟩
    ({ db with users := db.users ++ [u], next_user_id := db.next_user_id + 1 }, .ok u)

/-- GET /users/\x7buser_id\x7d : 404 when absent, else the row. -/
def read_user (db : DB) (user_id : Nat) : Except ServiceError User :=
  match getUserById db user_id with
  | none => .error (.http ⟨404, "User not found"⟩)
  | some u => .ok u

/-- DELETE /users/\x7buser_id\x7d : 404 when absent; db.delete(user) with the
relationship cascade "all, delete-orphan" removes the user row and every
order row whose user_id references it. -/
def delete_user (db : DB) (user_id : Nat) : DB × Except ServiceError String :=
  match getUserById db user_id with
  | none => (db, .error (.http ⟨404, "User not found"⟩))
  | some _ =>
    ({ db with users := db.users.filter (fun u => !(u.id == user_id)),
               orders := db.orders.filter (fun o => !(o.user_id == user_id)) },
     .ok ("User with ID " ++ toString user_id ++ " has been deleted successfully"))

/-- POST /users/\x7buser_id\x7d/orders/ : 404 when the user is absent (nothing
is inserted), else inserts an order row with user_id set to that user. -/
def create_order_for_user (db : DB) (user_id : Nat) (order : OrderCreate) :
    DB × Except ServiceError Order :=
  match getUserById db user_id with
  | none => (db, .error (.http ⟨404, "User not found"⟩))
  | some _ =>
    let o : Order := ⟨db.next_order_id, order.product_name, order.quantity, order.price, user_id⟩
    ({ db with orders := db.orders ++ [o], next_order_id := db.next_order_id + 1 }, .ok o)

/-- Projection built by the single-order read: the order columns plus
order.user.username. -/
def mkOrderResponse (o : Order) (u : User) : OrderResponse :=
  ⟨o.id, o.product_name, o.quantity, o.price, o.user_id, u.username⟩

/-- GET /orders/\x7border_id\x7d : 404 when absent; otherwise builds the dict
with order.user.username.  The relationship traversal order.user is the
user row matching order.user_id; when no such row exists the attribute
access is an unguarded fault. -/
def read_order (db : DB) (order_id : Nat) : Except ServiceError OrderResponse :=
  match getOrderById db order_id with
  | none => .error (.http ⟨404, "Order not found"⟩)
  | some o =>
    match getUserById db o.user_id with
    | none => .error (.attributeError ("NoneType object has no attribute username"))
    | some u => .ok (mkOrderResponse o u)

/-- db.query(Order).all(): always yields a (possibly empty) list, never None. -/
def queryAllOrders (db : DB) : Option (List Order) :=
  some db.orders

/-- The loop of GET /orders : sets i.username = i.user.username on every
fetched order; an order whose user row is missing faults unguarded. -/
def annotateOrders (db : DB) : List Order → Except ServiceError (List OrderResponse)
  | [] => .ok []
  | o :: rest =>
    match getUserById db o.user_id with
    | none => .error (.attributeError ("NoneType object has no attribute username"))
    | some u =>
      match annotateOrders db rest with
      | .error e => .error e
      | .ok rs => .ok (mkOrderResponse o u :: rs)

/-- GET /orders : fetches all orders, has a dead None-check on the list
result of .all(), then annotates each order with its owner's username. -/
def read_order_list (db : DB) : Except ServiceError (List OrderResponse) :=
  match queryAllOrders db with
  | none => .error (.http ⟨404, "Order not found"⟩)
  | some orders => annotateOrders db orders

/-- GET /users/ : the response_model annotation is commented out in the
source, so the handler returns the raw user rows. -/
def read_users (db : DB) : List User :=
  db.users

end OneToMany

namespace OneToOne

/-- Row of the `users` table in one_to_one.py: id and required name. -/
structure User where
  id : Nat
  name : String
deriving DecidableEq

/-- Row of the `profiles` table in one_to_one.py: id, bio text, and a
nullable user_id foreign key carrying a storage-level unique constraint
(that uniqueness is what encodes the one-to-one shape; the column is
declared without nullable=False, and the ORM sets it to NULL when the
owning user is deleted). -/
structure Profile where
  id : Nat
  bio : String
  user_id : Option Nat
deriving DecidableEq

/-- The test.db store: both tables plus the auto-increment counters. -/
structure DB where
  users : List User
  profiles : List Profile
  next_user_id : Nat
  next_profile_id : Nat
deriving DecidableEq

/-- Request body of POST /users/ and PUT /users/\x7buser_id\x7d (pydantic UserCreate). -/
structure UserCreate where
  name : String
  bio : String

/-- Response shape of user endpoints (pydantic UserResponse).  bio is a
required str field: constructing the model with a missing bio raises a
pydantic validation error.  `company` is a static default attached to
every constructed response. -/
structure UserResponse where
  id : Nat
  name : String
  bio : String
  company : String
deriving DecidableEq

/-- Every UserResponse the handlers build leaves `company` at its default
constant "Bharat Pvt". -/
def mkUserResponse (id : Nat) (name : String) (bio : String) : UserResponse :=
  ⟨id, name, bio, "Bharat Pvt"⟩

/-- Request body of POST /profiles/ (pydantic ProfileCreate). -/
structure ProfileCreate where
  bio : String
  user_id : Nat

/-- db.query(User).filter(User.id == user_id).first() -/
def getUserById (db : DB) (user_id : Nat) : Option User :=
  db.users.find? (fun u => u.id == user_id)

/-- The relationship traversal user.profile (uselist=False): the profile
row whose user_id column equals the given user id (a NULL column matches
nothing).  Also the query
db.query(Profile).filter(Profile.user_id == user_id).first(). -/
def getProfileByUserId (db : DB) (user_id : Nat) : Option Profile :=
  db.profiles.find? (fun p => p.user_id == some user_id)

/-- POST /users/ : two sequential committed inserts — the user row, then a
profile row referencing the new user id.  There is no uniqueness
constraint on name; only the profiles.user_id unique constraint can
reject the second insert (after the first one is already committed). -/
def create_user (db : DB) (user : UserCreate) : DB × Except ServiceError UserResponse :=
  let u : User := ⟨db.next_user_id, user.name⟩
  let db1 : DB := { db with users := db.users ++ [u], next_user_id := db.next_user_id + 1 }
  if db1.profiles.any (fun p => p.user_id == some u.id) then
    (db1, .error (.integrityError ("UNIQUE constraint failed: profiles.user_id")))
  else
    let p : Profile := ⟨db1.next_profile_id, user.bio, some u.id⟩
    let db2 : DB :=
      { db1 with profiles := db1.profiles ++ [p], next_profile_id := db1.next_profile_id + 1 }
    (db2, .ok (mkUserResponse u.id u.name p.bio))

/-- One step per user of the GET /users list comprehension: each element
constructs UserResponse with bio = user.profile.bio if user.profile else
None, and pydantic validates bio against its required str declaration —
a user without a profile row raises a validation error. -/
def buildUserResponses (db : DB) : List User → Except ServiceError (List UserResponse)
  | [] => .ok []
  | u :: rest =>
    match getProfileByUserId db u.id with
    | none => .error (.validationError ("none is not an allowed value"))
    | some p =>
      match buildUserResponses db rest with
      | .error e => .error e
      | .ok rs => .ok (mkUserResponse u.id u.name p.bio :: rs)

/-- GET /users : builds one UserResponse per stored user; a user whose
profile row is missing makes the required-str validation of bio fail. -/
def read_users (db : DB) : Except ServiceError (List UserResponse) :=
  buildUserResponses db db.users

/-- GET /users/\x7buser_id\x7d : 404 "User not found" when the row is absent;
404 "Profile not found" when the user exists but user.profile is None. -/
def read_user (db : DB) (user_id : Nat) : Except ServiceError UserResponse :=
  match getUserById db user_id with
  | none => .error (.http ⟨404, "User not found"⟩)
  | some u =>
    match getProfileByUserId db user_id with
    | some p => .ok (mkUserResponse u.id u.name p.bio)
    | none => .error (.http ⟨404, "Profile not found"⟩)

/-- PUT /users/\x7buser_id\x7d : assigns user.name and profile.bio from the
payload with no existence check on either query result; a missing row
surfaces as an unguarded AttributeError before any commit. -/
def update_user (db : DB) (user_id : Nat) (payload : UserCreate) :
    DB × Except ServiceError UserResponse :=
  match getUserById db user_id with
  | none => (db, .error (.attributeError ("NoneType object has no attribute name")))
  | some u =>
    match getProfileByUserId db user_id with
    | none => (db, .error (.attributeError ("NoneType object has no attribute bio")))
    | some p =>
      let u1 : User := ⟨u.id, payload.name⟩
      let p1 : Profile := ⟨p.id, payload.bio, p.user_id⟩
      ({ db with users := db.users.map (fun x => if x.id == u.id then u1 else x),
                 profiles := db.profiles.map (fun x => if x.id == p.id then p1 else x) },
       .ok (mkUserResponse u.id payload.name payload.bio))

/-- The flush-time de-association performed by the ORM delete: the
relationship toward Profile has no delete cascade, so the dependent
profile row referencing the deleted user gets its user_id set to NULL. -/
def nullifyUserFk (user_id : Nat) (p : Profile) : Profile :=
  if p.user_id == some user_id then ⟨p.id, p.bio, none⟩ else p

/-- DELETE /users/\x7buser_id\x7d : 404 when absent; db.delete(user) removes the
user row only — no profile row is deleted, but the default no-cascade
flush nullifies the user_id of the profile referencing the deleted user. -/
def delete_user (db : DB) (user_id : Nat) : DB × Except ServiceError String :=
  match getUserById db user_id with
  | none => (db, .error (.http ⟨404, "User not found"⟩))
  | some _ =>
    ({ db with users := db.users.filter (fun u => !(u.id == user_id)),
               profiles := db.profiles.map (nullifyUserFk user_id) },
     .ok ("User has been deleted"))

/-- POST /profiles/ : 404 when the referenced user is absent; otherwise
inserts a profile row, subject to the storage unique constraint on
profiles.user_id (no pre-check in the handler). -/
def create_profile (db : DB) (profile : ProfileCreate) : DB × Except ServiceError Profile :=
  match getUserById db profile.user_id with
  | none => (db, .error (.http ⟨404, "User not found"⟩))
  | some _ =>
    if db.profiles.any (fun p => p.user_id == some profile.user_id) then
      (db, .error (.integrityError ("UNIQUE constraint failed: profiles.user_id")))
    else
      let p : Profile := ⟨db.next_profile_id, profile.bio, some profile.user_id⟩
      ({ db with profiles := db.profiles ++ [p], next_profile_id := db.next_profile_id + 1 },
       .ok p)

/-- GET /profiles/\x7bprofile_id\x7d : 404 when absent, else the row. -/
def read_profile (db : DB) (profile_id : Nat) : Except ServiceError Profile :=
  match db.profiles.find? (fun p => p.id == profile_id) with
  | none => .error (.http ⟨404, "Profile not found"⟩)
  | some p => .ok p

/-- db.query(Profile).all(): always yields a (possibly empty) list, never None. -/
def queryAllProfiles (db : DB) : Option (List Profile) :=
  some db.profiles

/-- GET /profiles : fetches all profile rows; the None-check on the list
result of .all() is dead code. -/
def read_all_profile (db : DB) : Except ServiceError (List Profile) :=
  match queryAllProfiles db with
  | none => .error (.http ⟨404, "Profile not found"⟩)
  | some ps => .ok ps

end OneToOne

/-! ### Sample stores used by the concrete witnesses -/

/-- A one-to-many store with one user (id 1) owning one order (id 1). -/
def omSample : OneToMany.DB :=
  ⟨[⟨1, "alice", "a@x.com"⟩], [⟨1, "Book", 2, 10, 1⟩], 2, 2⟩

/-- A one-to-one store with one user (id 1) and its profile (id 1). -/
def ooSample : OneToOne.DB :=
  ⟨[⟨1, "bob"⟩], [⟨1, "hi", some 1⟩], 2, 2⟩

/-- A one-to-one store with one user (id 1) and no profile row. -/
def ooSampleNoProfile : OneToOne.DB :=
  ⟨[⟨1, "bob"⟩], [], 2, 1⟩

/-! ### Serialized response fields (for comparing the one-to-many listUsers
output against the projection the spec describes) -/

/-- A value carried by one field of a serialized response object. -/
inductive FieldValue where
  | s (v : String)
  | n (v : Nat)
  | i (v : Int)
  | q (v : Rat)
  | orders (v : List OneToMany.OrderResponse)
deriving DecidableEq

/-- The fields a raw one-to-many user row carries when returned without a
response model: exactly its stored columns. -/
def userRowFields (u : OneToMany.User) : List (String × FieldValue) :=
  [("id", .n u.id), ("username", .s u.username), ("email", .s u.email)]

/-- The per-user projection the spec describes for the one-to-many
listUsers: the user columns plus a nested orders list (the UserResponse
shape, whose response_model annotation the source has commented out on
this endpoint). -/
def specListUsersFields (db : OneToMany.DB) (u : OneToMany.User) :
    List (String × FieldValue) :=
  [("id", .n u.id), ("username", .s u.username), ("email", .s u.email),
   ("orders", .orders ((db.orders.filter (fun o => o.user_id == u.id)).map
      (fun o => OneToMany.mkOrderResponse o u)))]

/-! ### C1 -/

/-- In a list of orders with pairwise-distinct ids, an id determines the row. -/
theorem order_id_inj {l : List OneToMany.Order}
    (h : l.Pairwise (fun a b => a.id ≠ b.id)) :
    ∀ x ∈ l, ∀ y ∈ l, x.id = y.id → x = y := by
  intro x hx y hy hxy
  by_contra hne
  have hsym : Symmetric (fun a b : OneToMany.Order => a.id ≠ b.id) := by
    intro a b hab hba
    exact hab hba.symm
  exact h.forall hsym hx hy hne hxy

/-- C1: in the one-to-many service, deleteUser(id) fails with NotFound when
no user with that id exists; on success it removes the user and every order
whose user_id references it, so that getOrder on each such order id
subsequently fails with 404 "Order not found". -/
theorem c1_delete_user_cascades (db : OneToMany.DB) (uid : Nat)
    (huniq : db.orders.Pairwise (fun a b => a.id ≠ b.id)) :
    (OneToMany.getUserById db uid = none →
        OneToMany.delete_user db uid = (db, .error (.http ⟨404, "User not found"⟩))) ∧
    (OneToMany.getUserById db uid ≠ none →
        OneToMany.getUserById (OneToMany.delete_user db uid).1 uid = none ∧
        ∀ o ∈ db.orders, o.user_id = uid →
          OneToMany.read_order (OneToMany.delete_user db uid).1 o.id =
            .error (.http ⟨404, "Order not found"⟩)) := by
  constructor
  · intro h
    simp [OneToMany.delete_user, h]
  · intro h
    obtain ⟨u, hu⟩ := Option.ne_none_iff_exists'.mp h
    have hfst : (OneToMany.delete_user db uid).1 =
        { db with users := db.users.filter (fun u => !(u.id == uid)),
                  orders := db.orders.filter (fun o => !(o.user_id == uid)) } := by
      simp [OneToMany.delete_user, hu]
    constructor
    · rw [hfst]
      apply List.find?_eq_none.mpr
      intro x hx
      have := (List.mem_filter.mp hx).2
      simpa using this
    · intro o ho houid
      have hnone : OneToMany.getOrderById (OneToMany.delete_user db uid).1 o.id = none := by
        rw [hfst]
        apply List.find?_eq_none.mpr
        intro x hx
        have hx2 := List.mem_filter.mp hx
        have hxuid : ¬ x.user_id = uid := by simpa using hx2.2
        simp only [beq_iff_eq]
        intro hid
        exact hxuid (order_id_inj huniq x hx2.1 o ho hid ▸ houid)
      simp [OneToMany.read_order, hnone]

/-- C1 witness: deleting user 1 of the sample store makes the lookup of its
order 1 fail with 404. -/
theorem c1_delete_user_cascades_witness :
    OneToMany.getUserById omSample 1 ≠ none ∧
    OneToMany.read_order (OneToMany.delete_user omSample 1).1 1 =
      .error (.http ⟨404, "Order not found"⟩) := by
  have h := c1_delete_user_cascades omSample 1 (by simp [omSample])
  exact ⟨by decide, (h.2 (by decide)).2 ⟨1, "Book", 2, 10, 1⟩ (by simp [omSample]) rfl⟩

/-! ### C2 -/

/-- C2: createOrderForUser fails with 404 and leaves the store unchanged
when the user id does not resolve; for an existing user it returns an
inserted order row linked to that user, appended to the order table. -/
theorem c2_create_order_for_user (db : OneToMany.DB) (uid : Nat)
    (oc : OneToMany.OrderCreate) :
    (OneToMany.getUserById db uid = none →
        OneToMany.create_order_for_user db uid oc =
          (db, .error (.http ⟨404, "User not found"⟩))) ∧
    (OneToMany.getUserById db uid ≠ none →
        ∃ o : OneToMany.Order,
          (OneToMany.create_order_for_user db uid oc).2 = .ok o ∧
          o.user_id = uid ∧
          o.product_name = oc.product_name ∧
          o.quantity = oc.quantity ∧
          o.price = oc.price ∧
          (OneToMany.create_order_for_user db uid oc).1.orders = db.orders ++ [o] ∧
          (OneToMany.create_order_for_user db uid oc).1.users = db.users) := by
  constructor
  · intro h
    simp [OneToMany.create_order_for_user, h]
  · intro h
    obtain ⟨u, hu⟩ := Option.ne_none_iff_exists'.mp h
    exact ⟨⟨db.next_order_id, oc.product_name, oc.quantity, oc.price, uid⟩,
      by simp [OneToMany.create_order_for_user, hu]⟩

/-- C2 witness: creating an order for the absent user 5 of the sample store
fails with 404 and returns the store unchanged; creating one for the
existing user 1 succeeds with a row linked to user 1. -/
theorem c2_create_order_for_user_witness :
    OneToMany.create_order_for_user omSample 5 ⟨"Pen", 1, 3⟩ =
      (omSample, .error (.http ⟨404, "User not found"⟩)) ∧
    ∃ o : OneToMany.Order,
      (OneToMany.create_order_for_user omSample 1 ⟨"Pen", 1, 3⟩).2 = .ok o ∧
      o.user_id = 1 := by
  refine ⟨(c2_create_order_for_user omSample 5 ⟨"Pen", 1, 3⟩).1 (by decide), ?_⟩
  obtain ⟨o, h1, h2, -⟩ := (c2_create_order_for_user omSample 1 ⟨"Pen", 1, 3⟩).2 (by decide)
  exact ⟨o, h1, h2⟩

/-! ### C3 -/

/-- The GET /users list comprehension raises the pydantic validation error
whenever some listed user has no profile row. -/
theorem buildUserResponses_error_of_missing (db : OneToOne.DB) :
    ∀ l : List OneToOne.User,
      (∃ u ∈ l, OneToOne.getProfileByUserId db u.id = none) →
      OneToOne.buildUserResponses db l =
        .error (.validationError ("none is not an allowed value")) := by
  intro l
  induction l with
  | nil =>
    intro h
    simp at h
  | cons a t ih =>
    intro h
    obtain ⟨u, hu, hp⟩ := h
    rcases List.mem_cons.mp hu with rfl | hut
    · simp [OneToOne.buildUserResponses, hp]
    · cases hpa : OneToOne.getProfileByUserId db a.id with
      | none => simp [OneToOne.buildUserResponses, hpa]
      | some p =>
        have ht := ih ⟨u, hut, hp⟩
        simp [OneToOne.buildUserResponses, hpa, ht]

/-- C3 counterexample: on the store whose single user 1 has no profile row,
the claim says listUsers includes that user with a null bio and raises no
error; the code instead fails the request, because UserResponse declares
bio as a required str and the handler passes None for a missing profile.
The single-user read does fail with 404 "Profile not found" as claimed. -/
theorem c3_list_error_counterexample :
    OneToOne.read_users ooSampleNoProfile =
      .error (.validationError ("none is not an allowed value")) ∧
    OneToOne.read_user ooSampleNoProfile 1 = .error (.http ⟨404, "Profile not found"⟩) :=
  ⟨rfl, rfl⟩

/-- C3 (amended): a user that exists without a profile row makes the
single-user read fail with 404 "Profile not found" (a condition distinct
from the user-absent 404); the list endpoint does not return such a user
with an absent bio — constructing its response fails the required-str
validation of bio, so listUsers errors for any store containing a
profileless user. -/
theorem c3_profile_asymmetry_amended (db : OneToOne.DB) (uid : Nat) (u : OneToOne.User)
    (hu : OneToOne.getUserById db uid = some u)
    (hp : OneToOne.getProfileByUserId db uid = none) :
    OneToOne.read_user db uid = .error (.http ⟨404, "Profile not found"⟩) ∧
    ("Profile not found" : String) ≠ "User not found" ∧
    OneToOne.read_users db = .error (.validationError ("none is not an allowed value")) := by
  have humem : u ∈ db.users := List.mem_of_find?_eq_some hu
  have huid : u.id = uid := by
    have := List.find?_some hu
    simpa using this
  refine ⟨by simp [OneToOne.read_user, hu, hp], by decide, ?_⟩
  exact buildUserResponses_error_of_missing db db.users ⟨u, humem, by rw [huid]; exact hp⟩

/-- C3 witness: in the sample store whose single user 1 has no profile row,
the single-user read fails with "Profile not found" and the list endpoint
fails with the validation error. -/
theorem c3_profile_asymmetry_amended_witness :
    OneToOne.read_user ooSampleNoProfile 1 = .error (.http ⟨404, "Profile not found"⟩) ∧
    OneToOne.read_users ooSampleNoProfile =
      .error (.validationError ("none is not an allowed value")) := by
  have h := c3_profile_asymmetry_amended ooSampleNoProfile 1 ⟨1, "bob"⟩ rfl rfl
  exact ⟨h.1, h.2.2⟩

/-! ### C4 -/

/-- When no element of the first list satisfies the predicate, find? over an
append continues in the second list. -/
theorem find?_append_of_none {α : Type} (p : α → Bool) {l₁ : List α} (l₂ : List α)
    (h : l₁.find? p = none) : (l₁ ++ l₂).find? p = l₂.find? p := by
  induction l₁ with
  | nil => simp
  | cons a t ih =>
    by_cases hpa : p a
    · rw [List.find?_cons_of_pos _ hpa] at h
      exact absurd h (by simp)
    · rw [List.find?_cons_of_neg _ hpa] at h
      rw [List.cons_append, List.find?_cons_of_neg _ hpa]
      exact ih h

/-- C4: createUserWithProfile returns a projection whose company field is
the constant "Bharat Pvt" and whose bio is the supplied one, and a
subsequent single-user read of the returned id yields that same bio (in a
store whose rows do not already use the fresh user id). -/
theorem c4_create_user_then_get (db : OneToOne.DB) (payload : OneToOne.UserCreate)
    (hfu : ∀ u ∈ db.users, u.id ≠ db.next_user_id)
    (hfp : ∀ p ∈ db.profiles, p.user_id ≠ some db.next_user_id) :
    ∃ r : OneToOne.UserResponse,
      (OneToOne.create_user db payload).2 = .ok r ∧
      r.company = "Bharat Pvt" ∧
      r.name = payload.name ∧
      r.bio = payload.bio ∧
      OneToOne.read_user (OneToOne.create_user db payload).1 r.id =
        .ok (OneToOne.mkUserResponse r.id payload.name payload.bio) := by
  have hcond : db.profiles.any (fun p => p.user_id == some db.next_user_id) = false := by
    rw [List.any_eq_false]
    intro p hpmem
    simpa using hfp p hpmem
  have hufind : db.users.find? (fun u => u.id == db.next_user_id) = none := by
    rw [List.find?_eq_none]
    intro u humem
    simpa using hfu u humem
  have hpfind : db.profiles.find? (fun p => p.user_id == some db.next_user_id) = none := by
    rw [List.find?_eq_none]
    intro p hpmem
    simpa using hfp p hpmem
  have hstate : (OneToOne.create_user db payload).1 =
      { db with users := db.users ++ [⟨db.next_user_id, payload.name⟩],
                profiles :=
                  db.profiles ++ [⟨db.next_profile_id, payload.bio, some db.next_user_id⟩],
                next_user_id := db.next_user_id + 1,
                next_profile_id := db.next_profile_id + 1 } := by
    simp [OneToOne.create_user, hcond]
  refine ⟨OneToOne.mkUserResponse db.next_user_id payload.name payload.bio, ?_, rfl, rfl,
    rfl, ?_⟩
  · simp [OneToOne.create_user, hcond]
  · have h1 : OneToOne.getUserById (OneToOne.create_user db payload).1 db.next_user_id =
        some ⟨db.next_user_id, payload.name⟩ := by
      rw [OneToOne.getUserById, hstate]
      show (db.users ++ [(⟨db.next_user_id, payload.name⟩ : OneToOne.User)]).find?
        (fun u => u.id == db.next_user_id) = _
      rw [find?_append_of_none _ _ hufind, List.find?_cons_of_pos _ (by simp)]
    have h2 : OneToOne.getProfileByUserId (OneToOne.create_user db payload).1 db.next_user_id =
        some ⟨db.next_profile_id, payload.bio, some db.next_user_id⟩ := by
      rw [OneToOne.getProfileByUserId, hstate]
      show (db.profiles ++ [(⟨db.next_profile_id, payload.bio, some db.next_user_id⟩ :
        OneToOne.Profile)]).find? (fun p => p.user_id == some db.next_user_id) = _
      rw [find?_append_of_none _ _ hpfind, List.find?_cons_of_pos _ (by simp)]
    simp [OneToOne.read_user, h1, h2, OneToOne.mkUserResponse]

/-- C4 witness: creating ("bob", "hi") in the empty store succeeds with
company "Bharat Pvt", and reading the returned id yields bio "hi". -/
theorem c4_create_user_then_get_witness :
    ∃ r : OneToOne.UserResponse,
      (OneToOne.create_user ⟨[], [], 1, 1⟩ ⟨"bob", "hi"⟩).2 = .ok r ∧
      r.company = "Bharat Pvt" ∧
      OneToOne.read_user (OneToOne.create_user ⟨[], [], 1, 1⟩ ⟨"bob", "hi"⟩).1 r.id =
        .ok (OneToOne.mkUserResponse r.id "bob" "hi") := by
  obtain ⟨r, h1, h2, -, -, h5⟩ :=
    c4_create_user_then_get ⟨[], [], 1, 1⟩ ⟨"bob", "hi"⟩ (by simp) (by simp)
  exact ⟨r, h1, h2, h5⟩

/-! ### C5 -/

/-- C5: in the one-to-one service, whenever the user row or the profile row
for the given id is missing, updateUser faults with the unguarded
AttributeError-equivalent (the state is left untouched), and never with a
designed HTTP error. -/
theorem c5_update_user_unguarded (db : OneToOne.DB) (uid : Nat)
    (payload : OneToOne.UserCreate)
    (h : OneToOne.getUserById db uid = none ∨ OneToOne.getProfileByUserId db uid = none) :
    (∃ msg, OneToOne.update_user db uid payload = (db, .error (.attributeError msg))) ∧
    ∀ e, (OneToOne.update_user db uid payload).2 ≠ .error (.http e) := by
  rcases h with h | h
  · exact ⟨⟨"NoneType object has no attribute name", by simp [OneToOne.update_user, h]⟩,
      by simp [OneToOne.update_user, h]⟩
  · cases hu : OneToOne.getUserById db uid with
    | none =>
      exact ⟨⟨"NoneType object has no attribute name", by simp [OneToOne.update_user, hu]⟩,
        by simp [OneToOne.update_user, hu]⟩
    | some u =>
      exact ⟨⟨"NoneType object has no attribute bio", by simp [OneToOne.update_user, hu, h]⟩,
        by simp [OneToOne.update_user, hu, h]⟩

/-- C5 witness: updating user 1 in the sample store that has no profile row
faults with an AttributeError-equivalent, not an HTTP error. -/
theorem c5_update_user_unguarded_witness :
    (∃ msg, OneToOne.update_user ooSampleNoProfile 1 ⟨"bob2", "new"⟩ =
      (ooSampleNoProfile, .error (.attributeError msg))) ∧
    ∀ e, (OneToOne.update_user ooSampleNoProfile 1 ⟨"bob2", "new"⟩).2 ≠ .error (.http e) :=
  c5_update_user_unguarded ooSampleNoProfile 1 ⟨"bob2", "new"⟩ (Or.inr rfl)

/-! ### C6 -/

/-- Every response produced by the GET /orders annotation loop carries the
username of the user row its user_id resolves to. -/
theorem annotateOrders_ok_username (db : OneToMany.DB) :
    ∀ (l : List OneToMany.Order) (rs : List OneToMany.OrderResponse),
      OneToMany.annotateOrders db l = .ok rs →
      ∀ r ∈ rs, ∃ u, OneToMany.getUserById db r.user_id = some u ∧
        r.username = u.username := by
  intro l
  induction l with
  | nil =>
    intro rs h r hr
    simp only [OneToMany.annotateOrders, Except.ok.injEq] at h
    subst h
    simp at hr
  | cons o t ih =>
    intro rs h r hr
    simp only [OneToMany.annotateOrders] at h
    cases hu : OneToMany.getUserById db o.user_id with
    | none => simp [hu] at h
    | some u =>
      simp only [hu] at h
      cases ht : OneToMany.annotateOrders db t with
      | error e => simp [ht] at h
      | ok rs2 =>
        simp only [ht, Except.ok.injEq] at h
        subst h
        rcases List.mem_cons.mp hr with hr1 | hr2
        · subst hr1
          exact ⟨u, hu, rfl⟩
        · exact ih rs2 ht r hr2

/-- C6: getOrder fails with 404 when the order is absent; when it exists,
the returned projection copies the username of the user its user_id
resolves to; and every element of the listOrders output carries the
username of its owning user at read time. -/
theorem c6_order_username (db : OneToMany.DB) (oid : Nat) :
    (OneToMany.getOrderById db oid = none →
        OneToMany.read_order db oid = .error (.http ⟨404, "Order not found"⟩)) ∧
    (∀ o u, OneToMany.getOrderById db oid = some o →
        OneToMany.getUserById db o.user_id = some u →
        OneToMany.read_order db oid = .ok (OneToMany.mkOrderResponse o u) ∧
        (OneToMany.mkOrderResponse o u).username = u.username ∧
        (OneToMany.mkOrderResponse o u).user_id = o.user_id) ∧
    (∀ rs, OneToMany.read_order_list db = .ok rs →
        ∀ r ∈ rs, ∃ u, OneToMany.getUserById db r.user_id = some u ∧
          r.username = u.username) := by
  refine ⟨?_, ?_, ?_⟩
  · intro h
    simp [OneToMany.read_order, h]
  · intro o u ho hu
    exact ⟨by simp [OneToMany.read_order, ho, hu], rfl, rfl⟩
  · intro rs h
    simp only [OneToMany.read_order_list, OneToMany.queryAllOrders] at h
    exact annotateOrders_ok_username db db.orders rs h

/-- C6 witness: in the sample store, reading absent order 2 fails with 404,
reading order 1 yields a projection carrying username "alice" of its owner
user 1, and the listing's single element carries its owner's username. -/
theorem c6_order_username_witness :
    OneToMany.read_order omSample 2 = .error (.http ⟨404, "Order not found"⟩) ∧
    OneToMany.read_order omSample 1 =
      .ok (OneToMany.mkOrderResponse ⟨1, "Book", 2, 10, 1⟩ ⟨1, "alice", "a@x.com"⟩) ∧
    (∃ u, OneToMany.getUserById omSample
        (OneToMany.mkOrderResponse ⟨1, "Book", 2, 10, 1⟩ ⟨1, "alice", "a@x.com"⟩).user_id =
          some u ∧
      (OneToMany.mkOrderResponse ⟨1, "Book", 2, 10, 1⟩ ⟨1, "alice", "a@x.com"⟩).username =
        u.username) := by
  refine ⟨(c6_order_username omSample 2).1 rfl,
    ((c6_order_username omSample 1).2.1 ⟨1, "Book", 2, 10, 1⟩ ⟨1, "alice", "a@x.com"⟩
      rfl rfl).1, ?_⟩
  exact (c6_order_username omSample 1).2.2
    [OneToMany.mkOrderResponse ⟨1, "Book", 2, 10, 1⟩ ⟨1, "alice", "a@x.com"⟩] rfl
    (OneToMany.mkOrderResponse ⟨1, "Book", 2, 10, 1⟩ ⟨1, "alice", "a@x.com"⟩)
    (List.mem_singleton.mpr rfl)

/-! ### C7 -/

/-- C7 counterexample: on the sample store, deleting user 1 does not leave
the profiles table unchanged — the profile row survives, but its user_id
is nullified by the no-cascade flush. -/
theorem c7_profiles_changed_counterexample :
    (OneToOne.delete_user ooSample 1).1.profiles ≠ ooSample.profiles ∧
    (OneToOne.delete_user ooSample 1).1.profiles = [⟨1, "hi", none⟩] := by
  constructor
  · decide
  · rfl

/-- C7 (amended): in the one-to-one service, deleteUser fails with 404 when
the user is absent; on success it removes the user row (keeping every other
user) and deletes no profile row — the table keeps its length, every
profile not referencing the deleted user survives unchanged, and a profile
that did reference it survives orphaned with its user_id set to NULL. -/
theorem c7_delete_user_orphans_profile (db : OneToOne.DB) (uid : Nat) :
    (OneToOne.getUserById db uid = none →
        OneToOne.delete_user db uid = (db, .error (.http ⟨404, "User not found"⟩))) ∧
    (OneToOne.getUserById db uid ≠ none →
        OneToOne.getUserById (OneToOne.delete_user db uid).1 uid = none ∧
        (∀ u ∈ db.users, u.id ≠ uid → u ∈ (OneToOne.delete_user db uid).1.users) ∧
        (OneToOne.delete_user db uid).1.profiles.length = db.profiles.length ∧
        (∀ p ∈ db.profiles, p.user_id ≠ some uid →
            p ∈ (OneToOne.delete_user db uid).1.profiles) ∧
        (∀ p ∈ db.profiles, p.user_id = some uid →
            (⟨p.id, p.bio, none⟩ : OneToOne.Profile) ∈
              (OneToOne.delete_user db uid).1.profiles) ∧
        (OneToOne.delete_user db uid).2 = .ok ("User has been deleted")) := by
  constructor
  · intro h
    simp [OneToOne.delete_user, h]
  · intro h
    obtain ⟨u, hu⟩ := Option.ne_none_iff_exists'.mp h
    have hfst : (OneToOne.delete_user db uid).1 =
        { db with users := db.users.filter (fun x => !(x.id == uid)),
                  profiles := db.profiles.map (OneToOne.nullifyUserFk uid) } := by
      simp [OneToOne.delete_user, hu]
    refine ⟨?_, ?_, ?_, ?_, ?_, by simp [OneToOne.delete_user, hu]⟩
    · rw [OneToOne.getUserById, hfst]
      apply List.find?_eq_none.mpr
      intro x hx
      have := (List.mem_filter.mp hx).2
      simpa using this
    · intro x hx hxid
      rw [hfst]
      exact List.mem_filter.mpr ⟨hx, by simpa using hxid⟩
    · rw [hfst]
      simp
    · intro p hp hpne
      rw [hfst]
      have h1 : OneToOne.nullifyUserFk uid p = p := by
        simp only [OneToOne.nullifyUserFk]
        rw [if_neg]
        simpa using hpne
      have h2 := List.mem_map_of_mem (OneToOne.nullifyUserFk uid) hp
      rwa [h1] at h2
    · intro p hp hpeq
      rw [hfst]
      have h1 : OneToOne.nullifyUserFk uid p = ⟨p.id, p.bio, none⟩ := by
        simp only [OneToOne.nullifyUserFk]
        rw [if_pos]
        simpa using hpeq
      have h2 := List.mem_map_of_mem (OneToOne.nullifyUserFk uid) hp
      rwa [h1] at h2

/-- C7 witness: deleting user 1 of the sample store succeeds, removes the
user, deletes no profile row, and leaves the referencing profile orphaned
with a NULL user_id. -/
theorem c7_delete_user_orphans_profile_witness :
    OneToOne.getUserById (OneToOne.delete_user ooSample 1).1 1 = none ∧
    (OneToOne.delete_user ooSample 1).1.profiles.length = ooSample.profiles.length ∧
    (⟨1, "hi", none⟩ : OneToOne.Profile) ∈ (OneToOne.delete_user ooSample 1).1.profiles := by
  have h := (c7_delete_user_orphans_profile ooSample 1).2 (by decide)
  exact ⟨h.1, h.2.2.1, h.2.2.2.2.1 ⟨1, "hi", some 1⟩ (by simp [ooSample]) rfl⟩

/-! ### C8 -/

/-- C8 counterexample: the one-to-one users table has no uniqueness
constraint, so submitting the same (name, bio) payload twice succeeds both
times with 200, leaving two user rows — the duplicate is not rejected with
a 409-equivalent conflict. -/
theorem c8_duplicate_succeeds_counterexample :
    (OneToOne.create_user ⟨[], [], 1, 1⟩ ⟨"bob", "hi"⟩).2 =
      .ok (OneToOne.mkUserResponse 1 "bob" "hi") ∧
    (OneToOne.create_user (OneToOne.create_user ⟨[], [], 1, 1⟩ ⟨"bob", "hi"⟩).1
        ⟨"bob", "hi"⟩).2 =
      .ok (OneToOne.mkUserResponse 2 "bob" "hi") ∧
    (OneToOne.create_user (OneToOne.create_user ⟨[], [], 1, 1⟩ ⟨"bob", "hi"⟩).1
        ⟨"bob", "hi"⟩).1.users.length = 2 :=
  ⟨rfl, rfl, rfl⟩

/-- C8 (amended): POST /users/ in the one-to-one service never raises a
conflict on a duplicate payload; whenever no stored profile occupies the
fresh user id, the create succeeds and adds one more user row. -/
theorem c8_create_user_no_conflict (db : OneToOne.DB) (payload : OneToOne.UserCreate)
    (hfp : ∀ p ∈ db.profiles, p.user_id ≠ some db.next_user_id) :
    ∃ r : OneToOne.UserResponse,
      (OneToOne.create_user db payload).2 = .ok r ∧
      (OneToOne.create_user db payload).1.users.length = db.users.length + 1 := by
  have hcond : db.profiles.any (fun p => p.user_id == some db.next_user_id) = false := by
    rw [List.any_eq_false]
    intro p hp
    simpa using hfp p hp
  exact ⟨OneToOne.mkUserResponse db.next_user_id payload.name payload.bio,
    by simp [OneToOne.create_user, hcond], by simp [OneToOne.create_user, hcond]⟩

/-- C8 witness: resubmitting ("bob", "hi") to the store already produced by
that very payload succeeds again and grows the users table by one row. -/
theorem c8_create_user_no_conflict_witness :
    ∃ r : OneToOne.UserResponse,
      (OneToOne.create_user (OneToOne.create_user ⟨[], [], 1, 1⟩ ⟨"bob", "hi"⟩).1
          ⟨"bob", "hi"⟩).2 = .ok r ∧
      (OneToOne.create_user (OneToOne.create_user ⟨[], [], 1, 1⟩ ⟨"bob", "hi"⟩).1
          ⟨"bob", "hi"⟩).1.users.length =
        (OneToOne.create_user ⟨[], [], 1, 1⟩ ⟨"bob", "hi"⟩).1.users.length + 1 :=
  c8_create_user_no_conflict (OneToOne.create_user ⟨[], [], 1, 1⟩ ⟨"bob", "hi"⟩).1
    ⟨"bob", "hi"⟩ (by decide)

/-! ### C9 -/

/-- C9 counterexample: on a store with one user owning one order, the rows
returned by the one-to-many listUsers carry only the stored user columns —
they differ from the spec-described projection that nests an orders list,
because the response_model annotation is commented out in the source. -/
theorem c9_no_orders_counterexample :
    (OneToMany.read_users omSample).map userRowFields ≠
      (OneToMany.read_users omSample).map (specListUsersFields omSample) := by
  decide

/-- C9 (amended): listUsers returns every stored user (the raw rows, in
storage order); each returned row carries exactly the stored columns id,
username and email, and no nested orders field. -/
theorem c9_read_users_raw (db : OneToMany.DB) :
    OneToMany.read_users db = db.users ∧
    (∀ u : OneToMany.User, (userRowFields u).map Prod.fst = ["id", "username", "email"]) ∧
    (∀ u : OneToMany.User, "orders" ∉ (userRowFields u).map Prod.fst) :=
  ⟨rfl, fun _ => rfl, fun u => by simp [userRowFields]⟩

/-- C9 witness: on the sample store, listUsers yields exactly the stored
user rows and the row of user 1 carries no orders field. -/
theorem c9_read_users_raw_witness :
    OneToMany.read_users omSample = omSample.users ∧
    "orders" ∉ (userRowFields ⟨1, "alice", "a@x.com"⟩).map Prod.fst :=
  ⟨(c9_read_users_raw omSample).1, (c9_read_users_raw omSample).2.2 ⟨1, "alice", "a@x.com"⟩⟩

/-! ### C10 -/

/-- The GET /orders annotation loop either succeeds or faults with the
unguarded AttributeError; it never yields an HTTP error. -/
theorem annotateOrders_no_http (db : OneToMany.DB) :
    ∀ (l : List OneToMany.Order) (e : HTTPError),
      OneToMany.annotateOrders db l ≠ .error (.http e) := by
  intro l
  induction l with
  | nil =>
    intro e h
    simp [OneToMany.annotateOrders] at h
  | cons o t ih =>
    intro e h
    simp only [OneToMany.annotateOrders] at h
    cases hu : OneToMany.getUserById db o.user_id with
    | none => simp [hu] at h
    | some u =>
      simp only [hu] at h
      cases ht : OneToMany.annotateOrders db t with
      | error e2 =>
        simp only [ht, Except.error.injEq] at h
        exact ih e (by rw [ht, h])
      | ok rs => simp [ht] at h

/-- C10: on the empty store, the one-to-many listOrders and the one-to-one
listProfiles both succeed with the empty sequence; indeed the fetch-all
query always yields a (possibly empty) list, so listProfiles succeeds on
every store and listOrders can never reach its 404 branch. -/
theorem c10_list_endpoints_never_404 :
    OneToMany.read_order_list ⟨[], [], 1, 1⟩ = .ok [] ∧
    OneToOne.read_all_profile ⟨[], [], 1, 1⟩ = .ok [] ∧
    (∀ db : OneToOne.DB, OneToOne.read_all_profile db = .ok db.profiles) ∧
    (∀ (db : OneToMany.DB) (e : HTTPError),
        OneToMany.read_order_list db ≠ .error (.http e)) := by
  refine ⟨rfl, rfl, fun db => rfl, fun db e h => ?_⟩
  simp only [OneToMany.read_order_list, OneToMany.queryAllOrders] at h
  exact annotateOrders_no_http db db.orders e h

/-- C10 witness: the 404 branch is in particular not taken on the empty
one-to-many store. -/
theorem c10_list_endpoints_never_404_witness :
    OneToMany.read_order_list ⟨[], [], 1, 1⟩ ≠
      .error (.http ⟨404, "Order not found"⟩) :=
  c10_list_endpoints_never_404.2.2.2 ⟨[], [], 1, 1⟩ ⟨404, "Order not found"⟩

end FastapiRel
